import Mathlib

/-!
Verification development for the okta-flowpack AWS utilities
(`lambda_PowerCycle.py` and `lambda_UpdateDNS.py`).

The two Lambda handlers are shallowly embedded as total Lean functions.
External collaborators (the EC2 control plane, the Route 53 control plane)
are modelled as oracle environments (`PCEnv`, `DnsEnv`) supplying the
outcome of every API call, and each handler additionally returns the trace
of API interactions it performed, so that claims about which calls are or
are not issued can be stated.  Python strings are `String`; a field that
may be absent (or, for `lambda_PowerCycle`, present with a non-string
value, which the code treats exactly like an absent one) is `Option
String`.  Exceptions raised by the AWS SDK are modelled as `Except` values
in the environment; code paths that can only be reached when the already
well-typed event/response data is malformed at the Python level (the
outer catch-all of `lambda_UpdateDNS.lambda_handler`) are not modelled.
-/

/-- Python `str` truthiness for an optional string: `None` and `""` are falsy. -/
def pyTruthy : Option String → Bool
  | none => false
  | some s => !(s == "")

/-- Characters removed by Python's `str.strip()` with no argument. -/
def isPySpace (c : Char) : Bool :=
  c = ' ' || c = '\t' || c = '\n' || c = '\r' || c = '\x0b' || c = '\x0c'

/-- Python `str.strip()`: drop whitespace from both ends. -/
def pyStrip (s : String) : String :=
  String.mk (((s.toList.dropWhile isPySpace).reverse.dropWhile isPySpace).reverse)

/-- Python `str.lower()` (the inputs at hand are ASCII). -/
def pyLower (s : String) : String :=
  String.mk (s.toList.map Char.toLower)

/-- Helper for `pySplitComma`: accumulates the current token in reverse. -/
def pySplitCommaAux : List Char → List Char → List String
  | [], acc => [String.mk acc.reverse]
  | c :: cs, acc =>
    if c = ',' then String.mk acc.reverse :: pySplitCommaAux cs []
    else pySplitCommaAux cs (c :: acc)

/-- Python `str.split(',')`: e.g. `"a,,b"` gives `["a", "", "b"]` and `""` gives `[""]`. -/
def pySplitComma (s : String) : List String :=
  pySplitCommaAux s.toList []

/-- Validation used for the `region` and `instances` fields of the PowerCycle
event: present, a string, and non-empty after stripping
(`'x' not in event or not isinstance(event['x'], str) or not event['x'].strip()`). -/
def strFieldOk : Option String → Bool
  | none => false
  | some s => !(pyStrip s == "")

/-- `re.match(r"^i-[0-9a-f]{17}$", s)` on an already stripped token:
`i-` followed by exactly 17 lowercase hexadecimal characters. -/
def isHexDigitLower (c : Char) : Bool :=
  ('0' ≤ c && c ≤ '9') || ('a' ≤ c && c ≤ 'f')

/-- The instance-ID format check of `lambda_PowerCycle.py` line 110/117. -/
def isValidInstanceId (s : String) : Bool :=
  match s.toList with
  | 'i' :: '-' :: rest => rest.length == 17 && rest.all isHexDigitLower
  | _ => false

/-- The PowerCycle request event.  `none` models a missing field (or, for
`region` and `instances`, a present non-string value, which the code
rejects identically). -/
structure PCEvent where
  region : Option String
  operation : Option String
  instances : Option String
  deriving DecidableEq

/-- A typed AWS API failure: a `botocore` `ClientError` carrying a code and a
message, or any other exception carrying its string rendering. -/
inductive ApiFailure where
  | clientError (code message : String)
  | otherError (message : String)
  deriving DecidableEq

/-- Outcome of one `start_instances`/`stop_instances` call. -/
inductive CallOutcome where
  | success
  | clientError (code message : String)
  | otherError (message : String)
  deriving DecidableEq

/-- One instance as returned by the paginated `describe_instances` listing:
`instance['InstanceId']` and `instance['State']['Name']`. -/
structure InstanceInfo where
  instanceId : String
  state : String
  deriving DecidableEq

/-- Oracle environment for `lambda_PowerCycle.lambda_handler`:
whether `boto3.client('ec2', ...)` raises, what the paginated
`describe_instances` listing returns (pages of reservations of instances),
and the outcome of the start/stop call for each instance id. -/
structure PCEnv where
  clientInitError : Option String
  describeAll : Except ApiFailure (List (List (List InstanceInfo)))
  callOutcome : String → CallOutcome

/-- A `{"instance_id": ..., "reason": ...}` entry of the failure lists. -/
structure FailedEntry where
  instance_id : String
  reason : String
  deriving DecidableEq

/-- The JSON bodies `lambda_PowerCycle.lambda_handler` can return, one
constructor per `json.dumps`-ed dict literal of the source, fields in the
source's key order. -/
inductive PCBody where
  | msgOnly (message : String)
  | invalidFormat (message : String) (invalid_instances : List FailedEntry)
  | noSuitable (message operation : String) (successful_instances : List String)
      (failed_instances : List FailedEntry)
  | full (message operation : String) (successful_instances : List String)
      (failed_instances : List FailedEntry) (region : String)
  deriving DecidableEq

/-- The JSON keys present in a PowerCycle response body, in source order. -/
def PCBody.fields : PCBody → List String
  | .msgOnly _ => ["message"]
  | .invalidFormat _ _ => ["message", "invalid_instances"]
  | .noSuitable _ _ _ _ =>
      ["message", "operation", "successful_instances", "failed_instances"]
  | .full _ _ _ _ _ =>
      ["message", "operation", "successful_instances", "failed_instances", "region"]

/-- The `successful_instances` list of a body (empty when the key is absent). -/
def PCBody.successList : PCBody → List String
  | .noSuitable _ _ s _ => s
  | .full _ _ s _ _ => s
  | _ => []

/-- The `failed_instances` list of a body, `none` when that key is absent. -/
def PCBody.failedListOpt : PCBody → Option (List FailedEntry)
  | .noSuitable _ _ _ f => some f
  | .full _ _ _ f _ => some f
  | _ => none

/-- The `invalid_instances` list of a body, `none` when that key is absent. -/
def PCBody.invalidListOpt : PCBody → Option (List FailedEntry)
  | .invalidFormat _ inv => some inv
  | _ => none

/-- The `failed_instances` list of a body (empty when the key is absent). -/
def PCBody.failedList (b : PCBody) : List FailedEntry :=
  (b.failedListOpt).getD []

/-- A `{"statusCode": ..., "body": ...}` return value of the PowerCycle handler. -/
structure PCResponse where
  statusCode : Nat
  body : PCBody
  deriving DecidableEq

/-- The EC2 API interactions the PowerCycle handler can perform. -/
inductive PCCall where
  | describeAllInstances
  | startInstances (instance_id : String)
  | stopInstances (instance_id : String)
  deriving DecidableEq

/-- The start or stop call issued for one instance id, per the operation. -/
def mkCall (operation instance_id : String) : PCCall :=
  if operation == "start" then .startInstances instance_id else .stopInstances instance_id

/-- State filter of the `instances == "all"` branch (lines 70-73): `start`
targets `stopped`/`stopping`, `stop` targets `running`/`pending`. -/
def stateMatches (operation state : String) : Bool :=
  (operation == "start" && (state == "stopped" || state == "stopping")) ||
  (operation == "stop" && (state == "running" || state == "pending"))

/-- The nested page/reservation/instance loop of lines 64-76: collect, in
order, the ids of the instances whose state suits the operation. -/
def selectInstances (operation : String)
    (pages : List (List (List InstanceInfo))) : List String :=
  ((pages.flatten).flatten.filter (fun i => stateMatches operation i.state)).map
    InstanceInfo.instanceId

/-- The split/strip/drop-empties pass over an explicit instance list
(lines 108-115). -/
def cleanedTokens (instances_input : String) : List String :=
  ((pySplitComma instances_input).map pyStrip).filter (fun t => !(t == ""))

/-- Reason string recorded for a token failing the format check (line 123). -/
def invalidFormatReason : String :=
  "Invalid EC2 instance ID format (must be i-xxxxxxxxxxxxxxxxx)"

/-- Tokens passing the format check, in order (line 117-118). -/
def validTokens (instances_input : String) : List String :=
  (cleanedTokens instances_input).filter (fun t => isValidInstanceId t)

/-- `failed_initial_validation_instances`: tokens failing the format check,
each with the invalid-format reason (lines 119-124). -/
def invalidTokenEntries (instances_input : String) : List FailedEntry :=
  ((cleanedTokens instances_input).filter (fun t => !(isValidInstanceId t))).map
    (fun t => ⟨t, invalidFormatReason⟩)

/-- The per-instance start/stop loop (lines 158-185): returns the
`successful_operations` list, the failure entries appended by the loop, and
the trace of issued calls.  Field validation guarantees the operation is
`"start"` or `"stop"` before this loop runs. -/
def runOps (operation : String) (env : PCEnv) : List String →
    List String × List FailedEntry × List PCCall
  | [] => ([], [], [])
  | instance_id :: rest =>
    let r := runOps operation env rest
    match env.callOutcome instance_id with
    | .success => (instance_id :: r.1, r.2.1, mkCall operation instance_id :: r.2.2)
    | .clientError code message =>
        (r.1, (⟨instance_id, s!"AWS API Error: [{code}] {message}"⟩ : FailedEntry) :: r.2.1,
          mkCall operation instance_id :: r.2.2)
    | .otherError message =>
        (r.1, (⟨instance_id, s!"Unexpected error: {message}"⟩ : FailedEntry) :: r.2.1,
          mkCall operation instance_id :: r.2.2)

/-- The 200 body of lines 81-89, returned when `instances == "all"` found
no instance in a suitable state. -/
def noSuitableBody (operation region : String) : PCBody :=
  .noSuitable
    s!"No instances found in suitable state for '{operation}' operation in region '{region}'."
    operation [] []

/-- Lines 150-216: run the loop over the resolved instance list, prepend the
initial format failures, and build the final status code, message and body. -/
def pcFinish (operation region : String) (env : PCEnv) (ids : List String)
    (initialFailed : List FailedEntry) (preCalls : List PCCall) :
    PCResponse × List PCCall :=
  let r := runOps operation env ids
  let successful_operations := r.1
  let failed_operations := initialFailed ++ r.2.1
  let status_code :=
    if successful_operations.isEmpty && !failed_operations.isEmpty then 500 else 200
  let overall_message :=
    if successful_operations.isEmpty && !failed_operations.isEmpty then
      s!"Failed to {operation} any of the specified instances. Check 'failed_instances' for details."
    else if !successful_operations.isEmpty && !failed_operations.isEmpty then
      s!"Successfully initiated {operation} for some instances, others failed. Check results for details."
    else
      s!"Successfully initiated {operation} for all specified instances."
  (⟨status_code, .full overall_message operation successful_operations failed_operations region⟩,
    preCalls ++ r.2.2)

/-- Shallow embedding of `lambda_PowerCycle.lambda_handler`, returning the
response together with the trace of EC2 API calls issued. -/
def pc_lambda_handler (event : PCEvent) (env : PCEnv) : PCResponse × List PCCall :=
  if !(strFieldOk event.region) then
    (⟨400, .msgOnly "Missing or invalid 'region' in event."⟩, [])
  else
    let region := pyStrip (event.region.getD "")
    if !(event.operation == some "start" || event.operation == some "stop") then
      (⟨400, .msgOnly "Missing or invalid 'operation' in event. Must be 'start' or 'stop'."⟩, [])
    else
      let operation := event.operation.getD ""
      if !(strFieldOk event.instances) then
        (⟨400, .msgOnly "Missing or invalid 'instances' in event. Must be 'all' or a comma-separated list of EC2 instance IDs."⟩, [])
      else
        let instances_input := pyStrip (event.instances.getD "")
        match env.clientInitError with
        | some _ =>
          (⟨500, .msgOnly s!"Failed to initialize EC2 client for region {region}."⟩, [])
        | none =>
          if pyLower instances_input == "all" then
            match env.describeAll with
            | .error (.clientError _ message) =>
              (⟨500, .msgOnly s!"Failed to list all instances in {region}: {message}"⟩,
                [.describeAllInstances])
            | .error (.otherError message) =>
              (⟨500, .msgOnly s!"Unexpected error listing all instances in {region}: {message}"⟩,
                [.describeAllInstances])
            | .ok pages =>
              let instances_to_process := selectInstances operation pages
              if instances_to_process.isEmpty then
                (⟨200, noSuitableBody operation region⟩, [.describeAllInstances])
              else
                pcFinish operation region env instances_to_process [] [.describeAllInstances]
          else
            let valid := validTokens instances_input
            let invalid := invalidTokenEntries instances_input
            if valid.isEmpty && invalid.isEmpty then
              (⟨400, .msgOnly "No valid EC2 instance IDs provided for processing."⟩, [])
            else if valid.isEmpty then
              (⟨400, .invalidFormat "All provided EC2 instance IDs had an invalid format." invalid⟩,
                [])
            else
              pcFinish operation region env valid invalid []

/-! ### lambda_UpdateDNS.py -/

/-- Static configuration of `lambda_UpdateDNS.py` (line 11). -/
def HOSTED_ZONE_ID : String := "Z00000000X0XXXXXXXXX"

/-- Static configuration of `lambda_UpdateDNS.py` (line 12). -/
def DNS_RECORD_TTL : Nat := 30

/-- The state-change event, reduced to the two fields the handler reads:
`event['detail']['instance-id']` and `event['region']`.  `none` models a
missing key (or missing `detail` object). -/
structure DnsEvent where
  detailInstanceId : Option String
  region : Option String
  deriving DecidableEq

/-- One instance of a `describe_instances` reservation: its id, its `Tags`
list (key/value pairs in response order; an absent `Tags` key is the empty
list, which the tag loop treats identically) and its `PublicIpAddress`. -/
structure DescInstance where
  instanceId : String
  tags : List (String × String)
  publicIp : Option String
  deriving DecidableEq

/-- Oracle environment for `lambda_UpdateDNS.lambda_handler`: what
`describe_instances([iid])` returns (reservations, each a list of
instances), and what `change_resource_record_sets` returns for given zone,
record name, IP and TTL. -/
structure DnsEnv where
  describe : String → Except ApiFailure (List (List DescInstance))
  route53 : String → String → String → Nat → Except ApiFailure String

/-- The API interactions the DNS handler can perform, in order: EC2 client
construction, the describe call, Route 53 client construction, and the
record-set change call. -/
inductive DnsCall where
  | ec2Client
  | describeInstances (instance_id : String)
  | route53Client
  | changeRecordSets (zone dns_name ip_address : String) (ttl : Nat)
  deriving DecidableEq

/-- A result recorded in `update_results`, one constructor per dict shape
the source appends: a successful upsert, an upsert that failed with a
`ClientError`, an upsert that failed with an unexpected exception, and a
skipped instance. -/
inductive UpdateResult where
  | upsertOk (dns_name ip_address change_info : String)
  | upsertClientErr (dns_name ip_address error_code error_message : String)
  | upsertOtherErr (dns_name ip_address error_message : String)
  | skipped (instance_id reason : String)
  deriving DecidableEq

/-- The `"status"` value of a recorded result. -/
def UpdateResult.status : UpdateResult → String
  | .upsertOk _ _ _ => "success"
  | .upsertClientErr _ _ _ _ => "error"
  | .upsertOtherErr _ _ _ => "error"
  | .skipped _ _ => "skipped"

/-- Shallow embedding of `do_dns_update` (lines 175-232): one UPSERT against
the Route 53 API; a `ClientError` or any other exception is caught and
converted into a structured error result, never re-raised. -/
def do_dns_update (env : DnsEnv) (hosted_zone_id dns_name ip_address : String)
    (ttl : Nat) : UpdateResult :=
  match env.route53 hosted_zone_id dns_name ip_address ttl with
  | .ok change_info => .upsertOk dns_name ip_address change_info
  | .error (.clientError code message) => .upsertClientErr dns_name ip_address code message
  | .error (.otherError message) => .upsertOtherErr dns_name ip_address message

/-- The API calls one `do_dns_update` invocation performs. -/
def do_dns_update_calls (hosted_zone_id dns_name ip_address : String)
    (ttl : Nat) : List DnsCall :=
  [.route53Client, .changeRecordSets hosted_zone_id dns_name ip_address ttl]

/-- The tag scan of lines 73-78: the last `Value` seen for the key wins,
`none` when the key never occurs. -/
def lookupTag (tags : List (String × String)) (key : String) : Option String :=
  tags.foldl (fun acc t => if t.1 = key then some t.2 else acc) none

/-- The name resolution of lines 69-92: the `PublicDNS` tag value when
truthy, else the `Name` tag value when truthy, else `none` (which makes the
handler return 400 immediately). -/
def resolveDnsName (inst : DescInstance) : Option String :=
  let dns_name := lookupTag inst.tags "PublicDNS"
  if pyTruthy dns_name then dns_name
  else
    let ec2_name := lookupTag inst.tags "Name"
    if pyTruthy ec2_name then ec2_name else none

/-- The reason string built at lines 104-109 when an instance is skipped. -/
def skipReason (dnsTruthy ipTruthy : Bool) : String :=
  let reason_msg := if dnsTruthy then ""
    else "Missing or empty 'PublicDNS' and no usable 'Name' tag."
  if ipTruthy then reason_msg
  else (if !(reason_msg == "") then reason_msg ++ " And " else reason_msg) ++
    "missing 'PublicIpAddress'."

/-- The JSON bodies `lambda_UpdateDNS.lambda_handler` can return, one
constructor per dict literal of the source. -/
inductive DnsBody where
  | validationErr (message : String) (event : DnsEvent)
  | lookupErr (message : String)
  | noTags (message : String)
  | notFound (message instance_id region : String)
  | aggregate (status message instance_id region : String) (updates : List UpdateResult)
  deriving DecidableEq

/-- The `"status"` field of a DNS handler response body (every error body of
the source carries `"status": "error"`). -/
def DnsBody.statusField : DnsBody → String
  | .validationErr _ _ => "error"
  | .lookupErr _ => "error"
  | .noTags _ => "error"
  | .notFound _ _ _ => "error"
  | .aggregate s _ _ _ _ => s

/-- A `{"statusCode": ..., "body": ...}` return value of the DNS handler. -/
structure DnsResponse where
  statusCode : Nat
  body : DnsBody
  deriving DecidableEq

/-- The 400 body of lines 86-92, returned when neither tag gives a name. -/
def noTagsBody (instance_id : String) : DnsBody :=
  .noTags
    s!"Cannot determine DNS name for instance '{instance_id}': No tags found on the instance."

/-- The 404 body of lines 120-131, returned when no instance was found. -/
def notFoundBody (instance_id region : String) : DnsBody :=
  .notFound
    s!"Instance with ID '{instance_id}' not found or could not be described."
    instance_id region

/-- Lines 69-118 for a single instance: resolve the DNS name (400 body on
failure), then either upsert (when a truthy name and a truthy IP are both
present) or record a skipped result.  Also returns the API calls made. -/
def processOne (env : DnsEnv) (inst : DescInstance) :
    Except DnsBody (UpdateResult × List DnsCall) :=
  match resolveDnsName inst with
  | none => .error (noTagsBody inst.instanceId)
  | some dns_name =>
      let ip_address := inst.publicIp
      if !(dns_name == "") && pyTruthy ip_address then
        .ok (do_dns_update env HOSTED_ZONE_ID dns_name (ip_address.getD "") DNS_RECORD_TTL,
          do_dns_update_calls HOSTED_ZONE_ID dns_name (ip_address.getD "") DNS_RECORD_TTL)
      else
        let reason_msg := skipReason (!(dns_name == "")) (pyTruthy ip_address)
        .ok (.skipped inst.instanceId
          s!"Skipping instance '{inst.instanceId}': {reason_msg}",
          [])

/-- The reservation/instance loop of lines 64-118 over the flattened
instance list: accumulates `update_results` and the call trace, or returns
the body of the short-circuiting 400 response (with the calls made so far). -/
def processInstances (env : DnsEnv) : List DescInstance →
    Except DnsBody (List UpdateResult) × List DnsCall
  | [] => (.ok [], [])
  | inst :: rest =>
    match processOne env inst with
    | .error b => (.error b, [])
    | .ok (r, calls) =>
      match processInstances env rest with
      | (.error b, tr) => (.error b, calls ++ tr)
      | (.ok rs, tr) => (.ok (r :: rs), calls ++ tr)

/-- `any(result.get('status') == 'error' for result in update_results)`. -/
def anyError (update_results : List UpdateResult) : Bool :=
  update_results.any (fun r => r.status == "error")

/-- Lines 133-156: the aggregated 200 response built once the loop finished
without short-circuiting and at least the not-found check passed. -/
def aggregateResponse (instance_id region : String)
    (update_results : List UpdateResult) : DnsResponse :=
  let overall_status_message :=
    if update_results.isEmpty then
      s!"No DNS updates were attempted for instance {instance_id}."
    else if anyError update_results then
      "Some DNS updates failed. Check 'updates' for details."
    else "DNS update process completed successfully."
  ⟨200, .aggregate
    (if anyError update_results then "partial_success_with_errors" else "success")
    overall_status_message instance_id region update_results⟩

/-- Shallow embedding of `lambda_UpdateDNS.lambda_handler`, returning the
response together with the trace of API interactions. -/
def dns_lambda_handler (event : DnsEvent) (env : DnsEnv) :
    DnsResponse × List DnsCall :=
  if !(pyTruthy event.detailInstanceId) || !(pyTruthy event.region) then
    (⟨400, .validationErr
        "Missing 'instance-id' or 'region' in the EC2 state-change event detail."
        event⟩, [])
  else
    let instance_id := event.detailInstanceId.getD ""
    let region := event.region.getD ""
    match env.describe instance_id with
    | .error (.clientError _ message) =>
      (⟨404, .lookupErr s!"Failed to describe instance {instance_id}: {message}"⟩,
        [.ec2Client, .describeInstances instance_id])
    | .error (.otherError message) =>
      (⟨500, .lookupErr s!"Unexpected error describing instance {instance_id}: {message}"⟩,
        [.ec2Client, .describeInstances instance_id])
    | .ok reservations =>
      let instances := reservations.flatten
      match processInstances env instances with
      | (.error b, tr) =>
        (⟨400, b⟩, [.ec2Client, .describeInstances instance_id] ++ tr)
      | (.ok update_results, tr) =>
        if instances.isEmpty then
          (⟨404, notFoundBody instance_id region⟩,
            [.ec2Client, .describeInstances instance_id] ++ tr)
        else
          (aggregateResponse instance_id region update_results,
            [.ec2Client, .describeInstances instance_id] ++ tr)

/-! ### Supporting lemmas about the DNS handler loop -/

/-- One-step unfolding of the instance loop. -/
theorem processInstances_cons (env : DnsEnv) (j : DescInstance) (l : List DescInstance) :
    processInstances env (j :: l) =
      match processOne env j with
      | .error b => (.error b, [])
      | .ok (r, calls) =>
        match processInstances env l with
        | (.error b, tr) => (.error b, calls ++ tr)
        | (.ok rs, tr) => (.ok (r :: rs), calls ++ tr) := rfl

/-- A resolvable instance never short-circuits `processOne`. -/
theorem processOne_isOk (env : DnsEnv) (inst : DescInstance) (d : String)
    (h : resolveDnsName inst = some d) :
    ∃ rc, processOne env inst = .ok rc := by
  simp only [processOne, h]
  split <;> exact ⟨_, rfl⟩

/-- An unresolvable instance makes `processOne` return the 400 body. -/
theorem processOne_isError (env : DnsEnv) (inst : DescInstance)
    (h : resolveDnsName inst = none) :
    processOne env inst = .error (noTagsBody inst.instanceId) := by
  simp only [processOne, h]

/-- The trace of a cons step whose head does not short-circuit. -/
theorem processInstances_trace_cons (env : DnsEnv) (j : DescInstance)
    (l : List DescInstance) (r : UpdateResult) (calls : List DnsCall)
    (h : processOne env j = .ok (r, calls)) :
    (processInstances env (j :: l)).2 = calls ++ (processInstances env l).2 := by
  rw [processInstances_cons, h]
  rcases hpl : processInstances env l with ⟨res, tr⟩
  cases res <;> simp

/-- A successful loop produced one result per instance. -/
theorem processInstances_ok_length (env : DnsEnv) :
    ∀ (l : List DescInstance) (rs : List UpdateResult) (tr : List DnsCall),
    processInstances env l = (.ok rs, tr) → rs.length = l.length := by
  intro l
  induction l with
  | nil =>
    intro rs tr h
    simp only [processInstances, Prod.mk.injEq, Except.ok.injEq] at h
    simp [← h.1]
  | cons j l ih =>
    intro rs tr h
    rw [processInstances_cons] at h
    rcases hj : processOne env j with b | ⟨r, calls⟩ <;> rw [hj] at h
    · simp at h
    · rcases hpl : processInstances env l with ⟨res, tr0⟩
      rw [hpl] at h
      cases res with
      | error b => simp at h
      | ok rs0 =>
        simp only [Prod.mk.injEq, Except.ok.injEq] at h
        rw [← h.1]
        simp [ih rs0 tr0 (by rw [hpl])]

/-- The first unresolvable instance short-circuits the whole loop: the 400
body is returned and the trace stops at the calls made for the instances
before it. -/
theorem processInstances_shortcircuit (env : DnsEnv) :
    ∀ (pre : List DescInstance) (inst : DescInstance) (rest : List DescInstance),
    (∀ j ∈ pre, resolveDnsName j ≠ none) → resolveDnsName inst = none →
    processInstances env (pre ++ inst :: rest) =
      (.error (noTagsBody inst.instanceId), (processInstances env pre).2) := by
  intro pre
  induction pre with
  | nil =>
    intro inst rest _ hinst
    simp only [List.nil_append]
    rw [processInstances_cons, processOne_isError env inst hinst]
    rfl
  | cons j pre ih =>
    intro inst rest hpre hinst
    have hj : resolveDnsName j ≠ none := hpre j (by simp)
    rcases Option.ne_none_iff_exists'.mp hj with ⟨d, hd⟩
    rcases processOne_isOk env j d hd with ⟨⟨r, calls⟩, hok⟩
    have hrec := ih inst rest (fun x hx => hpre x (by simp [hx])) hinst
    have htr := processInstances_trace_cons env j pre r calls hok
    rw [List.cons_append, processInstances_cons, hok, hrec, htr]

/-! ### Claim C7: the DNS-Upsert helper always returns a structured result -/

/-- C7: for every input (zone, DNS name, IP, TTL) and environment, the
DNS-Upsert helper returns a structured result and never propagates an
exception (the function is total over all modelled API outcomes): its
status is always "success" or "error"; a successful API call yields status
"success" with the change-tracking info; an API-level `ClientError` yields
status "error" carrying the upstream error code and message; any other
exception yields status "error" with its message. -/
theorem do_dns_update_total_result (env : DnsEnv)
    (hosted_zone_id dns_name ip_address : String) (ttl : Nat) :
    ((do_dns_update env hosted_zone_id dns_name ip_address ttl).status = "success" ∨
      (do_dns_update env hosted_zone_id dns_name ip_address ttl).status = "error") ∧
    (∀ change_info, env.route53 hosted_zone_id dns_name ip_address ttl = .ok change_info →
      do_dns_update env hosted_zone_id dns_name ip_address ttl =
        .upsertOk dns_name ip_address change_info) ∧
    (∀ code message,
      env.route53 hosted_zone_id dns_name ip_address ttl = .error (.clientError code message) →
      do_dns_update env hosted_zone_id dns_name ip_address ttl =
        .upsertClientErr dns_name ip_address code message) ∧
    (∀ message,
      env.route53 hosted_zone_id dns_name ip_address ttl = .error (.otherError message) →
      do_dns_update env hosted_zone_id dns_name ip_address ttl =
        .upsertOtherErr dns_name ip_address message) := by
  refine ⟨?_, ?_, ?_, ?_⟩
  · rcases h : env.route53 hosted_zone_id dns_name ip_address ttl with f | ci
    · rcases f with ⟨c, m⟩ | m
      · right; simp [do_dns_update, h, UpdateResult.status]
      · right; simp [do_dns_update, h, UpdateResult.status]
    · left; simp [do_dns_update, h, UpdateResult.status]
  · intro ci h; simp [do_dns_update, h]
  · intro c m h; simp [do_dns_update, h]
  · intro m h; simp [do_dns_update, h]

/-- Environment whose Route 53 call fails with a `ClientError`. -/
def dnsEnvC7 : DnsEnv :=
  ⟨fun _ => .ok [], fun _ _ _ _ => .error (.clientError "InvalidInput" "bad value")⟩

/-- Witness: `do_dns_update_total_result` at a concrete failing input. -/
theorem do_dns_update_total_result_witness :
    do_dns_update dnsEnvC7 "Z1" "host.example.com" "1.2.3.4" 30 =
      .upsertClientErr "host.example.com" "1.2.3.4" "InvalidInput" "bad value" ∧
    (do_dns_update dnsEnvC7 "Z1" "host.example.com" "1.2.3.4" 30).status = "error" :=
  ⟨(do_dns_update_total_result dnsEnvC7 "Z1" "host.example.com" "1.2.3.4" 30).2.2.1
      "InvalidInput" "bad value" rfl, rfl⟩

/-! ### Claim C10: DNS handler validation short-circuits before any API use -/

/-- C10: a missing nested instance-id or top-level region, or one that is
present but the empty string, makes the DNS handler return status 400 with
the validation body and an empty API trace: no client is constructed and no
API call is issued, and the empty string behaves exactly like an absent
field. -/
theorem dns_validation_short_circuit (event : DnsEvent) (env : DnsEnv)
    (h : event.detailInstanceId = none ∨ event.detailInstanceId = some "" ∨
      event.region = none ∨ event.region = some "") :
    dns_lambda_handler event env =
      (⟨400, .validationErr
          "Missing 'instance-id' or 'region' in the EC2 state-change event detail."
          event⟩, []) := by
  have hcond : (!(pyTruthy event.detailInstanceId) || !(pyTruthy event.region)) = true := by
    rcases h with h | h | h | h <;> simp [h, pyTruthy]
  simp only [dns_lambda_handler, hcond, if_true]

/-- A benign concrete environment for the C10 witness. -/
def dnsEnvC10 : DnsEnv := ⟨fun _ => .ok [], fun _ _ _ _ => .ok "cid"⟩

/-- Witness: a present-but-empty instance-id is rejected with 400 and an
empty trace. -/
theorem dns_validation_short_circuit_witness :
    dns_lambda_handler ⟨some "", some "us-east-1"⟩ dnsEnvC10 =
      (⟨400, .validationErr
          "Missing 'instance-id' or 'region' in the EC2 state-change event detail."
          ⟨some "", some "us-east-1"⟩⟩, []) :=
  dns_validation_short_circuit ⟨some "", some "us-east-1"⟩ dnsEnvC10 (Or.inr (Or.inl rfl))

/-! ### Claim C3: zero-result lookups (corrected) -/

/-- C3 (amended): when the describe lookup succeeds but the reservations
contain zero instances, the handler returns 404 "not found", not 200
"no updates attempted"; and whenever the loop completes over at least one
instance, at least one result is recorded, so the zero-result
"no updates attempted" report is unreachable once the not-found check
passed. -/
theorem dns_zero_instances_behavior (event : DnsEvent) (env : DnsEnv)
    (reservations : List (List DescInstance))
    (hid : pyTruthy event.detailInstanceId = true)
    (hr : pyTruthy event.region = true)
    (hdesc : env.describe (event.detailInstanceId.getD "") = .ok reservations) :
    (reservations.flatten = [] →
      dns_lambda_handler event env =
        (⟨404, notFoundBody (event.detailInstanceId.getD "") (event.region.getD "")⟩,
          [.ec2Client, .describeInstances (event.detailInstanceId.getD "")])) ∧
    (∀ rs tr, processInstances env reservations.flatten = (.ok rs, tr) →
      reservations.flatten ≠ [] → rs ≠ []) := by
  constructor
  · intro hflat
    simp only [dns_lambda_handler, hid, hr, Bool.not_true, Bool.or_self, Bool.false_or,
      Bool.or_false, if_false]
    rw [hdesc]
    simp [hflat, processInstances]
  · intro rs tr hproc hne hrs
    have hlen := processInstances_ok_length env reservations.flatten rs tr hproc
    rw [hrs] at hlen
    exact hne (List.length_eq_zero.mp hlen.symm)

/-- Environment for the C3 counterexample: one reservation, no instances. -/
def dnsEnvC3 : DnsEnv := ⟨fun _ => .ok [[]], fun _ _ _ _ => .ok "cid"⟩

/-- Counterexample to C3 as stated: with a successful lookup returning one
reservation that contains no instances (so zero DNS update results are
produced), the handler returns 404 "not found or could not be described",
not HTTP 200 with a "no updates attempted" message. -/
theorem dns_empty_reservation_gives_404 :
    dns_lambda_handler ⟨some "i-abc", some "us-east-1"⟩ dnsEnvC3 =
      (⟨404, notFoundBody "i-abc" "us-east-1"⟩,
        [.ec2Client, .describeInstances "i-abc"]) ∧
    (dns_lambda_handler ⟨some "i-abc", some "us-east-1"⟩ dnsEnvC3).1.statusCode ≠ 200 := by
  constructor
  · decide
  · decide

/-- Witness for `dns_zero_instances_behavior` at a concrete input. -/
theorem dns_zero_instances_behavior_witness :
    dns_lambda_handler ⟨some "i-xyz", some "eu-west-1"⟩ dnsEnvC10 =
      (⟨404, notFoundBody "i-xyz" "eu-west-1"⟩,
        [.ec2Client, .describeInstances "i-xyz"]) :=
  (dns_zero_instances_behavior ⟨some "i-xyz", some "eu-west-1"⟩ dnsEnvC10 []
    rfl rfl rfl).1 rfl

/-! ### Claim C6: aggregation status and HTTP code -/

/-- C6: whenever the lookup succeeded and the handler reaches aggregation
(the loop completed over at least one instance without short-circuiting),
the response is the aggregated one; its status field is
"partial_success_with_errors" exactly when some recorded result has status
"error", it is "success" otherwise, and the HTTP status code is 200. -/
theorem dns_aggregation_status (event : DnsEvent) (env : DnsEnv)
    (reservations : List (List DescInstance)) (rs : List UpdateResult)
    (tr : List DnsCall)
    (hid : pyTruthy event.detailInstanceId = true)
    (hr : pyTruthy event.region = true)
    (hdesc : env.describe (event.detailInstanceId.getD "") = .ok reservations)
    (hne : reservations.flatten ≠ [])
    (hproc : processInstances env reservations.flatten = (.ok rs, tr)) :
    dns_lambda_handler event env =
      (aggregateResponse (event.detailInstanceId.getD "") (event.region.getD "") rs,
        [.ec2Client, .describeInstances (event.detailInstanceId.getD "")] ++ tr) ∧
    ((aggregateResponse (event.detailInstanceId.getD "") (event.region.getD "") rs).body.statusField
        = "partial_success_with_errors" ↔ ∃ r ∈ rs, r.status = "error") ∧
    ((¬ ∃ r ∈ rs, r.status = "error") →
      (aggregateResponse (event.detailInstanceId.getD "") (event.region.getD "") rs).body.statusField
        = "success") ∧
    (aggregateResponse (event.detailInstanceId.getD "") (event.region.getD "") rs).statusCode
      = 200 := by
  have hany : anyError rs = true ↔ ∃ r ∈ rs, r.status = "error" := by
    simp [anyError, List.any_eq_true]
  have hie : reservations.flatten.isEmpty = false := by
    rcases hfl : reservations.flatten with _ | ⟨a, l⟩
    · exact absurd hfl hne
    · rfl
  refine ⟨?_, ?_, ?_, ?_⟩
  · simp only [dns_lambda_handler, hid, hr, Bool.not_true, Bool.or_self, if_false,
      hdesc, hproc, hie]
    simp
  · by_cases hE : anyError rs = true
    · simp [aggregateResponse, DnsBody.statusField, hE, hany.mp hE]
    · rw [← hany]
      simp [aggregateResponse, DnsBody.statusField, hE]
  · intro hno
    have hE : anyError rs = false := by
      rcases Bool.eq_false_or_eq_true (anyError rs) with h | h
      · exact absurd (hany.mp h) hno
      · exact h
    simp [aggregateResponse, DnsBody.statusField, hE]
  · simp [aggregateResponse]

/-- Environment for the C6 witness: one instance whose upsert fails. -/
def dnsEnvC6 : DnsEnv :=
  ⟨fun _ => .ok [[⟨"i-abc", [("PublicDNS", "www.example.com")], some "1.2.3.4"⟩]],
    fun _ _ _ _ => .error (.clientError "Throttling" "slow down")⟩

/-- Witness: an aggregation over one failed upsert reports
"partial_success_with_errors" with HTTP 200. -/
theorem dns_aggregation_status_witness :
    (dns_lambda_handler ⟨some "i-abc", some "us-east-1"⟩ dnsEnvC6).1.body.statusField
      = "partial_success_with_errors" ∧
    (dns_lambda_handler ⟨some "i-abc", some "us-east-1"⟩ dnsEnvC6).1.statusCode = 200 := by
  have h := dns_aggregation_status ⟨some "i-abc", some "us-east-1"⟩ dnsEnvC6
    [[⟨"i-abc", [("PublicDNS", "www.example.com")], some "1.2.3.4"⟩]]
    [.upsertClientErr "www.example.com" "1.2.3.4" "Throttling" "slow down"]
    [.route53Client, .changeRecordSets HOSTED_ZONE_ID "www.example.com" "1.2.3.4" DNS_RECORD_TTL]
    rfl rfl rfl (by decide) (by rfl)
  rw [h.1]
  refine ⟨?_, h.2.2.2⟩
  rw [h.2.1]
  exact ⟨.upsertClientErr "www.example.com" "1.2.3.4" "Throttling" "slow down", by simp, rfl⟩

/-! ### Claim C2: DNS name resolution order and the no-tags short circuit -/

/-- A resolved name is never the empty string. -/
theorem resolveDnsName_ne_empty (inst : DescInstance) (d : String)
    (h : resolveDnsName inst = some d) : (d == "") = false := by
  simp only [resolveDnsName] at h
  split at h
  · rename_i h1
    rw [h] at h1
    simpa [pyTruthy] using h1
  · split at h
    · rename_i h2
      rw [h] at h2
      simpa [pyTruthy] using h2
    · simp at h

/-- C2: per instance, the DNS name resolution is ordered: a truthy
(present and non-empty) `PublicDNS` tag value is used; otherwise a truthy
`Name` tag value; the resolved name (with a present public IP) is exactly
what the upsert is invoked with; and when neither tag is usable and every
earlier instance was resolvable, the handler immediately returns 400 with
the cannot-determine body, its trace ending with the calls made for the
earlier instances — nothing is processed for the remaining instances. -/
theorem dns_name_resolution_order (event : DnsEvent) (env : DnsEnv)
    (reservations : List (List DescInstance)) (pre rest : List DescInstance)
    (inst : DescInstance)
    (hid : pyTruthy event.detailInstanceId = true)
    (hr : pyTruthy event.region = true)
    (hdesc : env.describe (event.detailInstanceId.getD "") = .ok reservations)
    (hsplit : reservations.flatten = pre ++ inst :: rest)
    (hpre : ∀ j ∈ pre, resolveDnsName j ≠ none) :
    (pyTruthy (lookupTag inst.tags "PublicDNS") = true →
      resolveDnsName inst = lookupTag inst.tags "PublicDNS") ∧
    (pyTruthy (lookupTag inst.tags "PublicDNS") = false →
      pyTruthy (lookupTag inst.tags "Name") = true →
      resolveDnsName inst = lookupTag inst.tags "Name") ∧
    (∀ d, resolveDnsName inst = some d → pyTruthy inst.publicIp = true →
      processOne env inst =
        .ok (do_dns_update env HOSTED_ZONE_ID d (inst.publicIp.getD "") DNS_RECORD_TTL,
          do_dns_update_calls HOSTED_ZONE_ID d (inst.publicIp.getD "") DNS_RECORD_TTL)) ∧
    (resolveDnsName inst = none →
      dns_lambda_handler event env =
        (⟨400, noTagsBody inst.instanceId⟩,
          [.ec2Client, .describeInstances (event.detailInstanceId.getD "")] ++
            (processInstances env pre).2)) := by
  refine ⟨?_, ?_, ?_, ?_⟩
  · intro h1
    simp only [resolveDnsName]
    rw [if_pos h1]
  · intro h1 h2
    simp only [resolveDnsName]
    rw [if_neg (by simp [h1]), if_pos h2]
  · intro d hres hip
    have hne := resolveDnsName_ne_empty inst d hres
    simp only [processOne, hres]
    rw [if_pos (by simp [hne, hip])]
  · intro hnone
    have hproc := processInstances_shortcircuit env pre inst rest hpre hnone
    simp only [dns_lambda_handler, hid, hr, Bool.not_true, Bool.or_self, if_false,
      hdesc, hsplit, hproc]
    simp

/-- Environment for the C2 witness: the first instance resolves via its
`Name` tag, the second has no usable tags. -/
def dnsEnvC2 : DnsEnv :=
  ⟨fun _ => .ok [[⟨"i-one", [("Name", "host1")], some "1.2.3.4"⟩],
      [⟨"i-two", [("PublicDNS", ""), ("Role", "db")], some "5.6.7.8"⟩]],
    fun _ _ _ _ => .ok "cid"⟩

/-- Witness: the second instance (no usable tags) makes the handler return
400 right after the calls for the first instance. -/
theorem dns_name_resolution_order_witness :
    dns_lambda_handler ⟨some "i-one", some "us-east-1"⟩ dnsEnvC2 =
      (⟨400, noTagsBody "i-two"⟩,
        [.ec2Client, .describeInstances "i-one", .route53Client,
          .changeRecordSets HOSTED_ZONE_ID "host1" "1.2.3.4" DNS_RECORD_TTL]) := by
  have h := (dns_name_resolution_order ⟨some "i-one", some "us-east-1"⟩ dnsEnvC2
    [[⟨"i-one", [("Name", "host1")], some "1.2.3.4"⟩],
      [⟨"i-two", [("PublicDNS", ""), ("Role", "db")], some "5.6.7.8"⟩]]
    [⟨"i-one", [("Name", "host1")], some "1.2.3.4"⟩] []
    ⟨"i-two", [("PublicDNS", ""), ("Role", "db")], some "5.6.7.8"⟩
    rfl rfl rfl (by decide) (by decide)).2.2.2 (by decide)
  rw [h]
  rfl

/-! ### Supporting lemmas about the PowerCycle handler -/

/-- One-step unfolding of the start/stop loop. -/
theorem runOps_cons (operation : String) (env : PCEnv) (instance_id : String)
    (rest : List String) :
    runOps operation env (instance_id :: rest) =
      (let r := runOps operation env rest
       match env.callOutcome instance_id with
       | .success => (instance_id :: r.1, r.2.1, mkCall operation instance_id :: r.2.2)
       | .clientError code message =>
           (r.1, (⟨instance_id, s!"AWS API Error: [{code}] {message}"⟩ : FailedEntry) :: r.2.1,
             mkCall operation instance_id :: r.2.2)
       | .otherError message =>
           (r.1, (⟨instance_id, s!"Unexpected error: {message}"⟩ : FailedEntry) :: r.2.1,
             mkCall operation instance_id :: r.2.2)) := rfl

/-- The loop issues exactly one start/stop call per id, in order. -/
theorem runOps_trace (operation : String) (env : PCEnv) :
    ∀ ids : List String, (runOps operation env ids).2.2 = ids.map (mkCall operation) := by
  intro ids
  induction ids with
  | nil => rfl
  | cons j rest ih =>
    rw [runOps_cons]
    cases h : env.callOutcome j <;> simp [h, ih]

/-- Every iteration of the loop appends to exactly one of the two lists:
per id, successes plus failures add up to the id's number of occurrences. -/
theorem runOps_count (operation : String) (env : PCEnv) (instance_id : String) :
    ∀ ids : List String,
    (runOps operation env ids).1.count instance_id +
      ((runOps operation env ids).2.1.filter
        (fun e => e.instance_id == instance_id)).length =
      ids.count instance_id := by
  intro ids
  induction ids with
  | nil => rfl
  | cons j rest ih =>
    rw [runOps_cons, List.count_cons]
    cases h : env.callOutcome j <;>
      simp only [h, List.count_cons, List.filter_cons] <;>
      by_cases hj : (j == instance_id) = true <;>
      simp [hj] <;> omega

/-- `pcFinish` unpacked: the body is the full five-field one, the status
code is 500 exactly when no call succeeded and some failure exists, and
the trace extends the prefix with the loop's calls. -/
theorem pcFinish_eq (operation region : String) (env : PCEnv) (ids : List String)
    (initialFailed : List FailedEntry) (preCalls : List PCCall) :
    ∃ msg, pcFinish operation region env ids initialFailed preCalls =
      (⟨(if (runOps operation env ids).1.isEmpty &&
            !(initialFailed ++ (runOps operation env ids).2.1).isEmpty then 500 else 200),
        .full msg operation (runOps operation env ids).1
          (initialFailed ++ (runOps operation env ids).2.1) region⟩,
        preCalls ++ (runOps operation env ids).2.2) :=
  ⟨_, rfl⟩

/-- The handler, once field validation and client construction succeed and
the selector is an explicit list, reduces to the explicit-list branch. -/
theorem pc_handler_explicit (event : PCEvent) (env : PCEnv) (s op : String)
    (hr : strFieldOk event.region = true)
    (hop : event.operation = some "start" ∨ event.operation = some "stop")
    (hi : strFieldOk event.instances = true)
    (hc : env.clientInitError = none)
    (hs : pyStrip (event.instances.getD "") = s)
    (hoeq : event.operation.getD "" = op)
    (hnall : pyLower s ≠ "all") :
    pc_lambda_handler event env =
      (if (validTokens s).isEmpty && (invalidTokenEntries s).isEmpty then
        (⟨400, .msgOnly "No valid EC2 instance IDs provided for processing."⟩, [])
      else if (validTokens s).isEmpty then
        (⟨400, .invalidFormat "All provided EC2 instance IDs had an invalid format."
            (invalidTokenEntries s)⟩, [])
      else
        pcFinish op (pyStrip (event.region.getD "")) env (validTokens s)
          (invalidTokenEntries s) []) := by
  have hopb : (event.operation == some "start" || event.operation == some "stop") = true := by
    rcases hop with h | h <;> simp [h]
  have hball : (pyLower s == "all") = false := by
    simp [hnall]
  simp only [pc_lambda_handler, hr, hopb, hi, hc, hs, hoeq, hball, Bool.not_true,
    Bool.false_eq_true, if_false, Bool.not_false, Bool.true_and]

/-- The handler, once field validation and client construction succeed, the
selector is `"all"` and the listing succeeds, reduces to the all branch. -/
theorem pc_handler_all (event : PCEvent) (env : PCEnv) (s op : String)
    (pages : List (List (List InstanceInfo)))
    (hr : strFieldOk event.region = true)
    (hop : event.operation = some "start" ∨ event.operation = some "stop")
    (hi : strFieldOk event.instances = true)
    (hc : env.clientInitError = none)
    (hs : pyStrip (event.instances.getD "") = s)
    (hoeq : event.operation.getD "" = op)
    (hall : pyLower s = "all")
    (hd : env.describeAll = .ok pages) :
    pc_lambda_handler event env =
      (if (selectInstances op pages).isEmpty then
        (⟨200, noSuitableBody op (pyStrip (event.region.getD ""))⟩, [.describeAllInstances])
      else
        pcFinish op (pyStrip (event.region.getD "")) env (selectInstances op pages) []
          [.describeAllInstances]) := by
  have hopb : (event.operation == some "start" || event.operation == some "stop") = true := by
    rcases hop with h | h <;> simp [h]
  have hball : (pyLower s == "all") = true := by
    simp [hall]
  simp only [pc_lambda_handler, hr, hopb, hi, hc, hs, hoeq, hball, hd, Bool.not_true,
    Bool.false_eq_true, if_false, Bool.not_false, if_true]

/-! ### Claim C5: the "all" selector filters by current state -/

/-- Boolean state filter unpacked into the spec's wording. -/
theorem stateMatches_iff (operation state : String) :
    stateMatches operation state = true ↔
      (operation = "start" ∧ (state = "stopped" ∨ state = "stopping")) ∨
      (operation = "stop" ∧ (state = "running" ∨ state = "pending")) := by
  simp [stateMatches, Bool.or_eq_true, Bool.and_eq_true, beq_iff_eq]

/-- C5: with `instances` equal (case-insensitively, after stripping) to
"all", the resolved processing set holds exactly the described instances
whose state is stopped/stopping for a start operation, running/pending for
a stop operation; an empty selection yields 200 with empty success and
failure lists; a non-empty one is exactly what the call loop then targets. -/
theorem select_all_state_filter (event : PCEvent) (env : PCEnv) (s op : String)
    (pages : List (List (List InstanceInfo)))
    (hr : strFieldOk event.region = true)
    (hop : event.operation = some "start" ∨ event.operation = some "stop")
    (hi : strFieldOk event.instances = true)
    (hc : env.clientInitError = none)
    (hs : pyStrip (event.instances.getD "") = s)
    (hoeq : event.operation.getD "" = op)
    (hall : pyLower s = "all")
    (hd : env.describeAll = .ok pages) :
    (∀ x, x ∈ selectInstances op pages ↔
      ∃ i, i ∈ pages.flatten.flatten ∧
        ((op = "start" ∧ (i.state = "stopped" ∨ i.state = "stopping")) ∨
          (op = "stop" ∧ (i.state = "running" ∨ i.state = "pending"))) ∧
        i.instanceId = x) ∧
    (selectInstances op pages = [] →
      pc_lambda_handler event env =
        (⟨200, noSuitableBody op (pyStrip (event.region.getD ""))⟩,
          [.describeAllInstances])) ∧
    (selectInstances op pages ≠ [] →
      (pc_lambda_handler event env).2 =
        .describeAllInstances :: (selectInstances op pages).map (mkCall op)) := by
  have hred := pc_handler_all event env s op pages hr hop hi hc hs hoeq hall hd
  refine ⟨?_, ?_, ?_⟩
  · intro x
    simp only [selectInstances, List.mem_map, List.mem_filter]
    constructor
    · rintro ⟨i, ⟨hmem, hmatch⟩, hx⟩
      exact ⟨i, hmem, (stateMatches_iff op i.state).mp hmatch, hx⟩
    · rintro ⟨i, hmem, hmatch, hx⟩
      exact ⟨i, ⟨hmem, (stateMatches_iff op i.state).mpr hmatch⟩, hx⟩
  · intro hsel
    rw [hred]
    simp [hsel]
  · intro hsel
    rw [hred]
    have hie : (selectInstances op pages).isEmpty = false := by
      rcases hsel2 : selectInstances op pages with _ | ⟨a, l⟩
      · exact absurd hsel2 hsel
      · rfl
    rcases pcFinish_eq op (pyStrip (event.region.getD "")) env (selectInstances op pages)
      [] [.describeAllInstances] with ⟨msg, hfin⟩
    rw [hie]
    simp only [Bool.false_eq_true, if_false, hfin]
    simp [runOps_trace]

/-- Environment for the C5 witness: one stopped and one running instance. -/
def pcEnvC5 : PCEnv :=
  ⟨none, .ok [[[⟨"i-aaaaaaaaaaaaaaaaa", "stopped"⟩, ⟨"i-bbbbbbbbbbbbbbbbb", "running"⟩]]],
    fun _ => .success⟩

/-- Witness: a start-all request targets exactly the stopped instance. -/
theorem select_all_state_filter_witness :
    (pc_lambda_handler ⟨some "us-east-1", some "start", some " All "⟩ pcEnvC5).2 =
      [.describeAllInstances, .startInstances "i-aaaaaaaaaaaaaaaaa"] := by
  have h := (select_all_state_filter ⟨some "us-east-1", some "start", some " All "⟩
    pcEnvC5 "All" "start"
    [[[⟨"i-aaaaaaaaaaaaaaaaa", "stopped"⟩, ⟨"i-bbbbbbbbbbbbbbbbb", "running"⟩]]]
    (by decide) (Or.inl rfl) (by decide) rfl (by decide) rfl (by decide) rfl).2.2
    (by decide)
  rw [h]
  decide

/-! ### Claim C1: the final status code decision table (corrected) -/

/-- The status computation of lines 187-198, unpacked case by case. -/
theorem pc_status_if (succ : List String) (failed : List FailedEntry) :
    (succ = [] → failed ≠ [] →
      (if succ.isEmpty && !failed.isEmpty then (500 : Nat) else 200) = 500) ∧
    (succ ≠ [] →
      (if succ.isEmpty && !failed.isEmpty then (500 : Nat) else 200) = 200) ∧
    (failed = [] →
      (if succ.isEmpty && !failed.isEmpty then (500 : Nat) else 200) = 200) := by
  rcases succ with _ | ⟨a, succ⟩ <;> rcases failed with _ | ⟨b, failed⟩ <;> simp

/-- C1 (amended): for requests that pass field validation (and whose client
construction succeeds), the final status code follows the decision table of
the source: on the explicit-list path, zero callable instances with zero
format failures gives 400 "no valid instance IDs provided" and zero
callable instances with at least one format failure gives 400 with the
invalid list; after the execution loop (on either path), no successes with
at least one failure gives 500, and any success — or no failures at all —
gives 200.  On the "all" path, an empty selection gives 200 with empty
lists (the early no-op return), not 400. -/
theorem pc_status_code_table (event : PCEvent) (env : PCEnv) (s op : String)
    (hr : strFieldOk event.region = true)
    (hop : event.operation = some "start" ∨ event.operation = some "stop")
    (hi : strFieldOk event.instances = true)
    (hc : env.clientInitError = none)
    (hs : pyStrip (event.instances.getD "") = s)
    (hoeq : event.operation.getD "" = op) :
    (pyLower s ≠ "all" → validTokens s = [] → invalidTokenEntries s = [] →
      (pc_lambda_handler event env).1 =
        ⟨400, .msgOnly "No valid EC2 instance IDs provided for processing."⟩) ∧
    (pyLower s ≠ "all" → validTokens s = [] → invalidTokenEntries s ≠ [] →
      (pc_lambda_handler event env).1 =
        ⟨400, .invalidFormat "All provided EC2 instance IDs had an invalid format."
          (invalidTokenEntries s)⟩) ∧
    (pyLower s = "all" → ∀ pages, env.describeAll = .ok pages →
      selectInstances op pages = [] →
      (pc_lambda_handler event env).1 =
        ⟨200, noSuitableBody op (pyStrip (event.region.getD ""))⟩) ∧
    (pyLower s ≠ "all" → validTokens s ≠ [] →
      ((runOps op env (validTokens s)).1 = [] →
        invalidTokenEntries s ++ (runOps op env (validTokens s)).2.1 ≠ [] →
        (pc_lambda_handler event env).1.statusCode = 500) ∧
      ((runOps op env (validTokens s)).1 ≠ [] →
        (pc_lambda_handler event env).1.statusCode = 200) ∧
      (invalidTokenEntries s ++ (runOps op env (validTokens s)).2.1 = [] →
        (pc_lambda_handler event env).1.statusCode = 200)) ∧
    (pyLower s = "all" → ∀ pages, env.describeAll = .ok pages →
      selectInstances op pages ≠ [] →
      ((runOps op env (selectInstances op pages)).1 = [] →
        (runOps op env (selectInstances op pages)).2.1 ≠ [] →
        (pc_lambda_handler event env).1.statusCode = 500) ∧
      ((runOps op env (selectInstances op pages)).1 ≠ [] →
        (pc_lambda_handler event env).1.statusCode = 200) ∧
      ((runOps op env (selectInstances op pages)).2.1 = [] →
        (pc_lambda_handler event env).1.statusCode = 200)) := by
  refine ⟨?_, ?_, ?_, ?_, ?_⟩
  · intro hnall hv hinv
    rw [pc_handler_explicit event env s op hr hop hi hc hs hoeq hnall]
    simp [hv, hinv]
  · intro hnall hv hinv
    have hie : (invalidTokenEntries s).isEmpty = false := by
      rcases h2 : invalidTokenEntries s with _ | ⟨a, l⟩
      · exact absurd h2 hinv
      · rfl
    rw [pc_handler_explicit event env s op hr hop hi hc hs hoeq hnall]
    simp [hv, hie]
  · intro hall pages hd hsel
    rw [pc_handler_all event env s op pages hr hop hi hc hs hoeq hall hd]
    simp [hsel]
  · intro hnall hv
    have hve : (validTokens s).isEmpty = false := by
      rcases h2 : validTokens s with _ | ⟨a, l⟩
      · exact absurd h2 hv
      · rfl
    rw [pc_handler_explicit event env s op hr hop hi hc hs hoeq hnall]
    rcases pcFinish_eq op (pyStrip (event.region.getD "")) env (validTokens s)
      (invalidTokenEntries s) [] with ⟨msg, hfin⟩
    simp only [hve, Bool.false_and, Bool.false_eq_true, if_false, hfin]
    have h3 := pc_status_if (runOps op env (validTokens s)).1
      (invalidTokenEntries s ++ (runOps op env (validTokens s)).2.1)
    exact h3
  · intro hall pages hd hsel
    have hse : (selectInstances op pages).isEmpty = false := by
      rcases h2 : selectInstances op pages with _ | ⟨a, l⟩
      · exact absurd h2 hsel
      · rfl
    rw [pc_handler_all event env s op pages hr hop hi hc hs hoeq hall hd]
    rcases pcFinish_eq op (pyStrip (event.region.getD "")) env (selectInstances op pages)
      [] [.describeAllInstances] with ⟨msg, hfin⟩
    simp only [hse, Bool.false_eq_true, if_false, hfin]
    have h3 := pc_status_if (runOps op env (selectInstances op pages)).1
      ([] ++ (runOps op env (selectInstances op pages)).2.1)
    simpa using h3

/-- Benign environment (no failures, empty account) for C1. -/
def pcEnvC1 : PCEnv := ⟨none, .ok [], fun _ => .success⟩

/-- Counterexample to C1 as stated: a field-valid request with
`instances = "all"` over an account with no instances leaves zero
instances to call and zero recorded format failures, yet the handler
returns 200 (the early no-op return), not 400. -/
theorem pc_all_empty_selection_not_400 :
    selectInstances "start" [] = [] ∧
    (pc_lambda_handler ⟨some "us-east-1", some "start", some "all"⟩ pcEnvC1).1.statusCode
      = 200 ∧
    (pc_lambda_handler ⟨some "us-east-1", some "start", some "all"⟩ pcEnvC1).1.statusCode
      ≠ 400 := by
  decide

/-- Witness: an explicit list whose tokens are all empty after trimming
gives the 400 "no valid instance IDs" response. -/
theorem pc_status_code_table_witness :
    (pc_lambda_handler ⟨some "eu-central-1", some "stop", some " , "⟩ pcEnvC1).1 =
      ⟨400, .msgOnly "No valid EC2 instance IDs provided for processing."⟩ :=
  (pc_status_code_table ⟨some "eu-central-1", some "stop", some " , "⟩ pcEnvC1
    "," "stop" (by decide) (Or.inr rfl) (by decide) rfl (by decide) rfl).1
    (by decide) (by decide) (by decide)

/-! ### Claim C4: invalid-format tokens (corrected) -/

/-- C4 (amended): a token that is non-empty after trimming and fails the
instance-ID format check is never the target of a start/stop call, and is
always recorded as a failure entry with the invalid-format reason: the
entry appears in the response's `failed_instances` list when at least one
valid token proceeds to the call loop, and in the 400 response's
`invalid_instances` list when no valid token remains (in which case the
body has no `failed_instances` field at all); tokens that are empty after
trimming are silently discarded. -/
theorem invalid_token_reporting (event : PCEvent) (env : PCEnv) (s op t : String)
    (hr : strFieldOk event.region = true)
    (hop : event.operation = some "start" ∨ event.operation = some "stop")
    (hi : strFieldOk event.instances = true)
    (hc : env.clientInitError = none)
    (hs : pyStrip (event.instances.getD "") = s)
    (hoeq : event.operation.getD "" = op)
    (hnall : pyLower s ≠ "all")
    (ht : t ∈ cleanedTokens s)
    (hbad : isValidInstanceId t = false) :
    (∀ c ∈ (pc_lambda_handler event env).2,
      c ≠ .startInstances t ∧ c ≠ .stopInstances t) ∧
    (⟨t, invalidFormatReason⟩ : FailedEntry) ∈ invalidTokenEntries s ∧
    (validTokens s ≠ [] →
      (pc_lambda_handler event env).1.body.failedListOpt ≠ none ∧
      (⟨t, invalidFormatReason⟩ : FailedEntry) ∈
        (pc_lambda_handler event env).1.body.failedList) ∧
    (validTokens s = [] →
      (pc_lambda_handler event env).1.body.invalidListOpt =
        some (invalidTokenEntries s)) ∧
    "" ∉ cleanedTokens s := by
  have hmem : (⟨t, invalidFormatReason⟩ : FailedEntry) ∈ invalidTokenEntries s := by
    simp only [invalidTokenEntries, List.mem_map]
    exact ⟨t, List.mem_filter.mpr ⟨ht, by simp [hbad]⟩, rfl⟩
  have hie : (invalidTokenEntries s).isEmpty = false := by
    rcases h2 : invalidTokenEntries s with _ | ⟨a, l⟩
    · rw [h2] at hmem; simp at hmem
    · rfl
  have hred := pc_handler_explicit event env s op hr hop hi hc hs hoeq hnall
  refine ⟨?_, hmem, ?_, ?_, ?_⟩
  · intro c hc2
    rw [hred] at hc2
    split_ifs at hc2 with h1 h2
    · simp at hc2
    · simp at hc2
    · rcases pcFinish_eq op (pyStrip (event.region.getD "")) env (validTokens s)
        (invalidTokenEntries s) [] with ⟨msg, hfin⟩
      rw [hfin] at hc2
      simp only [List.nil_append, runOps_trace, List.mem_map] at hc2
      obtain ⟨x, hx, hcx⟩ := hc2
      have hxv : isValidInstanceId x = true := by
        simp only [validTokens, List.mem_filter] at hx
        exact hx.2
      have hxt : x ≠ t := by
        intro he
        rw [he, hbad] at hxv
        exact absurd hxv (by simp)
      subst hcx
      by_cases hos : (op == "start") = true
      · constructor <;> simp [mkCall, hos, hxt]
      · constructor <;> simp [mkCall, hos, hxt]
  · intro hvne
    have hve : (validTokens s).isEmpty = false := by
      rcases h2 : validTokens s with _ | ⟨a, l⟩
      · exact absurd h2 hvne
      · rfl
    rcases pcFinish_eq op (pyStrip (event.region.getD "")) env (validTokens s)
      (invalidTokenEntries s) [] with ⟨msg, hfin⟩
    rw [hred]
    simp only [hve, Bool.false_and, Bool.false_eq_true, if_false, hfin]
    constructor
    · simp [PCBody.failedListOpt]
    · simp only [PCBody.failedList, PCBody.failedListOpt, Option.getD_some]
      exact List.mem_append_left _ hmem
  · intro hv
    rw [hred]
    simp [hv, hie, PCBody.invalidListOpt]
  · intro habs
    simp only [cleanedTokens, List.mem_filter] at habs
    simp at habs

/-- Benign environment for the C4 counterexample and witness. -/
def pcEnvC4 : PCEnv := ⟨none, .ok [], fun _ => .success⟩

/-- Counterexample to C4 as stated: when every token is invalid, the 400
response records the token under `invalid_instances`; no `failed_instances`
field exists in that body, so the token does not appear in one. -/
theorem invalid_token_not_in_failed_field :
    (pc_lambda_handler ⟨some "us-east-1", some "stop", some "bad-id"⟩ pcEnvC4).1.statusCode
      = 400 ∧
    (pc_lambda_handler ⟨some "us-east-1", some "stop", some "bad-id"⟩ pcEnvC4).1.body.failedListOpt
      = none ∧
    (pc_lambda_handler ⟨some "us-east-1", some "stop", some "bad-id"⟩ pcEnvC4).1.body.invalidListOpt
      = some [⟨"bad-id", invalidFormatReason⟩] ∧
    "bad-id" ∈ cleanedTokens (pyStrip "bad-id") ∧
    isValidInstanceId "bad-id" = false := by
  decide

/-- Witness: with one valid and one invalid token, the invalid one is
reported in `failed_instances`. -/
theorem invalid_token_reporting_witness :
    (⟨"bad-id", invalidFormatReason⟩ : FailedEntry) ∈
      (pc_lambda_handler
        ⟨some "us-east-1", some "stop", some "i-0123456789abcdef0,bad-id"⟩
        pcEnvC4).1.body.failedList :=
  ((invalid_token_reporting
    ⟨some "us-east-1", some "stop", some "i-0123456789abcdef0,bad-id"⟩ pcEnvC4
    "i-0123456789abcdef0,bad-id" "stop" "bad-id"
    (by decide) (Or.inr rfl) (by decide) rfl (by decide) rfl (by decide)
    (by decide) (by decide)).2.2.1 (by decide)).2

/-! ### Claim C8: response body fields (corrected) -/

/-- C8 (amended): the aggregated response built after the execution loop
always carries all five fields — message, operation, successful_instances,
failed_instances, region — on both the explicit-list and the "all" path;
the early no-suitable-instances 200 response carries the same fields except
region, and the earlier validation/initialization error responses carry
only message (plus invalid_instances for the all-invalid 400). -/
theorem pc_response_fields_after_loop (event : PCEvent) (env : PCEnv) (s op : String)
    (hr : strFieldOk event.region = true)
    (hop : event.operation = some "start" ∨ event.operation = some "stop")
    (hi : strFieldOk event.instances = true)
    (hc : env.clientInitError = none)
    (hs : pyStrip (event.instances.getD "") = s)
    (hoeq : event.operation.getD "" = op) :
    (pyLower s ≠ "all" → validTokens s ≠ [] →
      (pc_lambda_handler event env).1.body.fields =
        ["message", "operation", "successful_instances", "failed_instances", "region"]) ∧
    (pyLower s = "all" → ∀ pages, env.describeAll = .ok pages →
      selectInstances op pages ≠ [] →
      (pc_lambda_handler event env).1.body.fields =
        ["message", "operation", "successful_instances", "failed_instances", "region"]) ∧
    (pyLower s = "all" → ∀ pages, env.describeAll = .ok pages →
      selectInstances op pages = [] →
      (pc_lambda_handler event env).1.body.fields =
        ["message", "operation", "successful_instances", "failed_instances"]) := by
  refine ⟨?_, ?_, ?_⟩
  · intro hnall hv
    have hve : (validTokens s).isEmpty = false := by
      rcases h2 : validTokens s with _ | ⟨a, l⟩
      · exact absurd h2 hv
      · rfl
    rw [pc_handler_explicit event env s op hr hop hi hc hs hoeq hnall]
    rcases pcFinish_eq op (pyStrip (event.region.getD "")) env (validTokens s)
      (invalidTokenEntries s) [] with ⟨msg, hfin⟩
    simp [hve, hfin, PCBody.fields]
  · intro hall pages hd hsel
    have hse : (selectInstances op pages).isEmpty = false := by
      rcases h2 : selectInstances op pages with _ | ⟨a, l⟩
      · exact absurd h2 hsel
      · rfl
    rw [pc_handler_all event env s op pages hr hop hi hc hs hoeq hall hd]
    rcases pcFinish_eq op (pyStrip (event.region.getD "")) env (selectInstances op pages)
      [] [.describeAllInstances] with ⟨msg, hfin⟩
    simp [hse, hfin, PCBody.fields]
  · intro hall pages hd hsel
    rw [pc_handler_all event env s op pages hr hop hi hc hs hoeq hall hd]
    simp [hsel, noSuitableBody, PCBody.fields]

/-- Benign environment for the C8 counterexample and witness. -/
def pcEnvC8 : PCEnv := ⟨none, .ok [], fun _ => .success⟩

/-- Counterexample to C8 as stated: the 400 response for a missing region
has a body with the single field message — neither region nor operation nor
the two result lists are present. -/
theorem pc_validation_body_missing_fields :
    (pc_lambda_handler ⟨none, some "start", some "all"⟩ pcEnvC8).1.body.fields
      = ["message"] ∧
    "region" ∉ (pc_lambda_handler ⟨none, some "start", some "all"⟩ pcEnvC8).1.body.fields ∧
    "successful_instances" ∉
      (pc_lambda_handler ⟨none, some "start", some "all"⟩ pcEnvC8).1.body.fields := by
  decide

/-- Witness: an executed explicit-list request yields the full five-field
body. -/
theorem pc_response_fields_after_loop_witness :
    (pc_lambda_handler ⟨some "us-east-1", some "start", some "i-0123456789abcdef0"⟩
      pcEnvC8).1.body.fields =
      ["message", "operation", "successful_instances", "failed_instances", "region"] :=
  (pc_response_fields_after_loop
    ⟨some "us-east-1", some "start", some "i-0123456789abcdef0"⟩ pcEnvC8
    "i-0123456789abcdef0" "start"
    (by decide) (Or.inl rfl) (by decide) rfl (by decide) rfl).1
    (by decide) (by decide)

/-! ### Claim C9: no deduplication of the explicit list -/

/-- For a fixed operation, distinct ids give distinct calls. -/
theorem mkCall_injective (operation : String) : Function.Injective (mkCall operation) := by
  intro x y h
  unfold mkCall at h
  split at h <;> simp_all

/-- Filtering by a predicate the counted element satisfies keeps its count. -/
theorem count_filter_of_pos (p : String → Bool) (a : String) (h : p a = true) :
    ∀ l : List String, (l.filter p).count a = l.count a := by
  intro l
  induction l with
  | nil => rfl
  | cons b l ih =>
    rw [List.filter_cons]
    by_cases hb : (b == a) = true
    · have hba : b = a := beq_iff_eq.mp hb
      have hpb : p b = true := by rw [hba]; exact h
      simp [hpb, List.count_cons, hb, ih]
    · by_cases hpb : p b = true <;> simp [hpb, List.count_cons, hb, ih]

/-- Format-failure entries never mention a format-valid id. -/
theorem invalid_entries_filter_nil (s instance_id : String)
    (hvalid : isValidInstanceId instance_id = true) :
    (invalidTokenEntries s).filter (fun e => e.instance_id == instance_id) = [] := by
  rw [List.filter_eq_nil_iff]
  intro e he
  simp only [invalidTokenEntries, List.mem_map, List.mem_filter] at he
  obtain ⟨t, ⟨_, htbad⟩, rfl⟩ := he
  intro he2
  have hta : t = instance_id := by simpa using he2
  rw [hta, hvalid] at htbad
  simp at htbad

/-- C9: the handler does not deduplicate the explicit list: a valid id that
occurs k > 0 times among the cleaned tokens receives exactly k start/stop
calls, and exactly k entries for it appear across the success and failure
lists of the final body. -/
theorem pc_no_dedup (event : PCEvent) (env : PCEnv) (s op instance_id : String)
    (k : Nat)
    (hr : strFieldOk event.region = true)
    (hop : event.operation = some "start" ∨ event.operation = some "stop")
    (hi : strFieldOk event.instances = true)
    (hc : env.clientInitError = none)
    (hs : pyStrip (event.instances.getD "") = s)
    (hoeq : event.operation.getD "" = op)
    (hnall : pyLower s ≠ "all")
    (hvalid : isValidInstanceId instance_id = true)
    (hk : (cleanedTokens s).count instance_id = k)
    (hkpos : 0 < k) :
    (pc_lambda_handler event env).2.count (mkCall op instance_id) = k ∧
    (pc_lambda_handler event env).1.body.successList.count instance_id +
      ((pc_lambda_handler event env).1.body.failedList.filter
        (fun e => e.instance_id == instance_id)).length = k := by
  have hvcount : (validTokens s).count instance_id = k := by
    rw [validTokens, count_filter_of_pos _ _ hvalid, hk]
  have hmem : instance_id ∈ validTokens s := by
    have : 0 < (validTokens s).count instance_id := by rw [hvcount]; exact hkpos
    exact List.count_pos_iff.mp this
  have hvne : validTokens s ≠ [] := by
    intro h2
    rw [h2] at hmem
    simp at hmem
  have hve : (validTokens s).isEmpty = false := by
    rcases h2 : validTokens s with _ | ⟨a, l⟩
    · exact absurd h2 hvne
    · rfl
  rw [pc_handler_explicit event env s op hr hop hi hc hs hoeq hnall]
  rcases pcFinish_eq op (pyStrip (event.region.getD "")) env (validTokens s)
    (invalidTokenEntries s) [] with ⟨msg, hfin⟩
  simp only [hve, Bool.false_and, Bool.false_eq_true, if_false, hfin]
  constructor
  · simp only [List.nil_append, runOps_trace]
    rw [List.count_map_of_injective _ _ (mkCall_injective op)]
    exact hvcount
  · simp only [PCBody.successList, PCBody.failedList, PCBody.failedListOpt,
      Option.getD_some, List.filter_append, List.length_append,
      invalid_entries_filter_nil s instance_id hvalid, List.length_nil, Nat.zero_add]
    rw [runOps_count]
    exact hvcount

/-- Environment for the C9 witness. -/
def pcEnvC9 : PCEnv := ⟨none, .ok [], fun _ => .success⟩

/-- Witness: an id listed twice is called twice and reported twice. -/
theorem pc_no_dedup_witness :
    (pc_lambda_handler
      ⟨some "us-east-1", some "start",
        some "i-0123456789abcdef0, i-0123456789abcdef0"⟩ pcEnvC9).2.count
      (mkCall "start" "i-0123456789abcdef0") = 2 ∧
    (pc_lambda_handler
      ⟨some "us-east-1", some "start",
        some "i-0123456789abcdef0, i-0123456789abcdef0"⟩ pcEnvC9).1.body.successList.count
        "i-0123456789abcdef0" +
      ((pc_lambda_handler
        ⟨some "us-east-1", some "start",
          some "i-0123456789abcdef0, i-0123456789abcdef0"⟩ pcEnvC9).1.body.failedList.filter
        (fun e => e.instance_id == "i-0123456789abcdef0")).length = 2 :=
  pc_no_dedup
    ⟨some "us-east-1", some "start", some "i-0123456789abcdef0, i-0123456789abcdef0"⟩
    pcEnvC9 "i-0123456789abcdef0, i-0123456789abcdef0" "start" "i-0123456789abcdef0" 2
    (by decide) (Or.inl rfl) (by decide) rfl (by decide) rfl (by decide) (by decide)
    (by decide) (by decide)
